import Mathlib

/-!
Verification of the Proofly MCP server's analysis-session orchestration
(`src/server.js`): the upload → poll → fetch lifecycle, the result
normalizer, the verdict mapping, base64 data-URI stripping, and the
face-detail lookup. JavaScript strings are modelled as `String` (or
`List Char` where character-level reasoning is needed), possibly-absent
JSON fields as `Option`, JS numbers carrying probability scores as `ℚ`,
and the remote HTTP service as an oracle: a function from the poll-call
index to the status response, plus the payload the result endpoint would
return. Network effects are made observable by returning call counts.
-/

namespace Proofly

/-- One detected face as returned by the remote API
(`faces: [{ansamble, is_real_model_*, face_path}]`). The primary
probability score `ansamble` and the crop path may be absent. -/
structure Face where
  ansamble : Option ℚ
  is_real_models : List (Option ℚ)
  face_path : Option String
deriving DecidableEq, Repr

/-- The full analysis payload (`/api/{uuid}` response body and the shape of
an embedded `result`). JSON fields that may be absent are `Option`. -/
structure AnalysisResult where
  uuid : Option String
  sha256 : Option String
  status : Option String
  message : Option String
  faces : Option (List Face)
  total_faces : Option Nat
deriving DecidableEq, Repr

/-- One `GET /api/{uuid}/status` response body: a `status` string and an
optionally embedded `result` (server.js lines 313-318). -/
structure StatusResp where
  status : String
  result : Option AnalysisResult
deriving DecidableEq, Repr

/-- `getVerdict` (server.js lines 61-70): `null`/`undefined` probability is
modelled as `none`. -/
def getVerdict (probability : Option ℚ) : String :=
  match probability with
  | none => "Uncertain (no score)"
  | some p =>
    if p > 0.8 then "Likely Real"
    else if p < 0.2 then "Likely Fake"
    else "Uncertain"

/-- The `while` condition of the poll loop (server.js line 306):
`status === 'in progress' || status === 'processing' || status === 'pending'`.
`true` means the loop keeps polling. -/
def loopGuard (s : String) : Bool :=
  s == "in progress" || s == "processing" || s == "pending"

/-- Errors thrown by the orchestration, named after the spec's taxonomy.
In the source they are all `Error` objects distinguished by message. -/
inductive SubmitError where
  | uploadNoUuid
  | pollTimeout
  | analysisIncomplete (lastStatus : String)
deriving DecidableEq, Repr

/-- Outcome of the poll loop: either the retry bound fired
(`timeout`, recording how many status queries were made), or the loop
exited on a non-matching status (`exited`, recording the last observed
status, the number of status queries made, and the last embedded result
captured, if any). -/
inductive PollOutcome where
  | timeout (queries : Nat)
  | exited (status : String) (queries : Nat) (acc : Option AnalysisResult)
deriving DecidableEq, Repr

/-- The poll loop (server.js lines 302-319). `seq k` is the body of the
`(k+1)`-th `GET /api/{uuid}/status` response. State: current `status`,
`attempts` made so far, and the captured embedded result `acc`
(`analysisResult` in the source; line 316 only overwrites it when the
response carries a truthy `result`). The bound check
`attempts >= maxRetries` throws before any further query. -/
def pollAux (seq : Nat → StatusResp) (maxRetries : Nat)
    (status : String) (attempts : Nat) (acc : Option AnalysisResult) :
    PollOutcome :=
  if loopGuard status then
    if maxRetries ≤ attempts then .timeout attempts
    else
      let resp := seq attempts
      pollAux seq maxRetries resp.status (attempts + 1)
        (match resp.result with | some r => some r | none => acc)
  else .exited status attempts acc
termination_by maxRetries - attempts
decreasing_by
  simp only [not_le] at *
  omega

/-- The synthesized result for a no-faces terminal status
(server.js lines 324-330). -/
def noFacesResult (uuid : String) : AnalysisResult :=
  { uuid := some uuid
    sha256 := none
    status := some "no_faces_found"
    message := some "No faces detected in the image."
    faces := some []
    total_faces := some 0 }

/-- The post-loop normalization (server.js lines 321-340), given the
`fetchResult` the result endpoint `GET /api/{uuid}` would return. Returns
the final result together with the number of explicit result fetches
performed (0 or 1). -/
def finalizeResult (uuid : String) (fetchResult : AnalysisResult)
    (status : String) (acc : Option AnalysisResult) :
    Except SubmitError (AnalysisResult × Nat) :=
  if status ≠ "done" ∧ status ≠ "completed" ∧ acc = none then
    if status = "no_faces_found" ∨ status = "no faces found" then
      .ok (noFacesResult uuid, 0)
    else
      .error (.analysisIncomplete status)
  else
    match acc with
    | some r => .ok (r, 0)
    | none => .ok (fetchResult, 1)

/-- The poll-and-normalize phase of `handleAnalyzeImage` /
`handleAnalyzeImageUrl` after a successful upload (server.js lines
302-340): the loop starts from the synthetic status `'in progress'` with
`attempts = 0` and no captured result. On success returns the final
`AnalysisResult`, the number of status queries, and the number of explicit
result fetches. -/
def submitPoll (maxRetries : Nat) (uuid : String) (seq : Nat → StatusResp)
    (fetchResult : AnalysisResult) :
    Except SubmitError (AnalysisResult × Nat × Nat) :=
  match pollAux seq maxRetries "in progress" 0 none with
  | .timeout _ => .error .pollTimeout
  | .exited status queries acc =>
    match finalizeResult uuid fetchResult status acc with
    | .error e => .error e
    | .ok (r, fetches) => .ok (r, queries, fetches)

/-- The whole submit orchestration including the upload step (server.js
lines 289-340): `uploadUuid` is the `uuid` field of the upload response;
`none` or the falsy `""` throws at line 298. -/
def submit (maxRetries : Nat) (uploadUuid : Option String)
    (seq : Nat → StatusResp) (fetchResult : AnalysisResult) :
    Except SubmitError (AnalysisResult × Nat × Nat) :=
  match uploadUuid with
  | none => .error .uploadNoUuid
  | some uuid =>
    if uuid = "" then .error .uploadNoUuid
    else submitPoll maxRetries uuid seq fetchResult

/-- `maxRetries` from `PROOFLY_CONFIG` (server.js line 32). -/
def prooflyMaxRetries : Nat := 60

/-- The verdict computed for a face by the human-readable formatter
`formatResultsToHumanReadable` (server.js line 90:
`const faceVerdict = getVerdict(face.ansamble)`). -/
def analyzeFaceVerdict (face : Face) : String :=
  getVerdict face.ansamble

/-- The verdict computed for a face by the text rendering of
`handleGetFaceDetails` (server.js line 525:
`const faceVerdict = getVerdict(specificFace.ansamble)`). -/
def detailsFaceVerdict (face : Face) : String :=
  getVerdict face.ansamble

end Proofly

namespace Proofly

/-- C3: for every probability score `p`, `getVerdict` returns
"Likely Real" iff `p > 0.8`, "Likely Fake" iff `p < 0.2`, and "Uncertain"
otherwise, including at the boundaries `0.8` and `0.2`; an absent score
gives "Uncertain (no score)"; and both verdict-rendering paths
(`formatResultsToHumanReadable` and the text path of
`handleGetFaceDetails`) apply the same `getVerdict` mapping. -/
theorem verdict_mapping_c3 :
    ∀ p : ℚ,
      (getVerdict (some p) = "Likely Real" ↔ 0.8 < p) ∧
      (getVerdict (some p) = "Likely Fake" ↔ p < 0.2) ∧
      (getVerdict (some p) = "Uncertain" ↔ 0.2 ≤ p ∧ p ≤ 0.8) ∧
      getVerdict (some 0.8) = "Uncertain" ∧
      getVerdict (some 0.2) = "Uncertain" ∧
      getVerdict none = "Uncertain (no score)" ∧
      (∀ f : Face, analyzeFaceVerdict f = getVerdict f.ansamble ∧
        detailsFaceVerdict f = getVerdict f.ansamble) := by
  intro p
  refine ⟨?_, ?_, ?_, by norm_num [getVerdict], by norm_num [getVerdict], rfl,
    fun f => ⟨rfl, rfl⟩⟩
  · by_cases h1 : (0.8 : ℚ) < p
    · rw [show getVerdict (some p) = "Likely Real" from by simp [getVerdict, h1]]
      exact iff_of_true rfl h1
    · by_cases h2 : p < (0.2 : ℚ)
      · rw [show getVerdict (some p) = "Likely Fake" from by simp [getVerdict, h1, h2]]
        exact iff_of_false (by decide) h1
      · rw [show getVerdict (some p) = "Uncertain" from by simp [getVerdict, h1, h2]]
        exact iff_of_false (by decide) h1
  · by_cases h1 : (0.8 : ℚ) < p
    · rw [show getVerdict (some p) = "Likely Real" from by simp [getVerdict, h1]]
      exact iff_of_false (by decide) (fun h => absurd h1 (by linarith))
    · by_cases h2 : p < (0.2 : ℚ)
      · rw [show getVerdict (some p) = "Likely Fake" from by simp [getVerdict, h1, h2]]
        exact iff_of_true rfl h2
      · rw [show getVerdict (some p) = "Uncertain" from by simp [getVerdict, h1, h2]]
        exact iff_of_false (by decide) h2
  · by_cases h1 : (0.8 : ℚ) < p
    · rw [show getVerdict (some p) = "Likely Real" from by simp [getVerdict, h1]]
      exact iff_of_false (by decide) (fun h => absurd h1 (not_lt.mpr h.2))
    · by_cases h2 : p < (0.2 : ℚ)
      · rw [show getVerdict (some p) = "Likely Fake" from by simp [getVerdict, h1, h2]]
        exact iff_of_false (by decide) (fun h => absurd h2 (not_lt.mpr h.1))
      · rw [show getVerdict (some p) = "Uncertain" from by simp [getVerdict, h1, h2]]
        exact iff_of_true rfl ⟨not_lt.mp h2, not_lt.mp h1⟩

/-- C3 witness: the mapping evaluated at the concrete score 1/2 and at a
concrete face. -/
theorem verdict_mapping_c3_witness :
    (getVerdict (some (1/2)) = "Uncertain" ↔ (0.2 : ℚ) ≤ 1/2 ∧ (1/2 : ℚ) ≤ 0.8) ∧
    analyzeFaceVerdict ⟨some (1/2), [], none⟩ =
      getVerdict (Face.ansamble ⟨some (1/2), [], none⟩) :=
  ⟨(verdict_mapping_c3 (1/2)).2.2.1, ((verdict_mapping_c3 (1/2)).2.2.2.2.2.2 ⟨some (1/2), [], none⟩).1⟩

end Proofly

namespace Proofly

/-- C1 (amended): the poll loop continues exactly while the reported
status is one of the three literals `'in progress'` (with a space),
`'processing'`, `'pending'`; on any other status value — recognized
terminal or not — the loop exits immediately, and while the guard holds
(below the retry bound) each iteration re-queries the status sequence. -/
theorem pollLoop_guard_c1 :
    ∀ (s : String) (seq : Nat → StatusResp) (maxRetries attempts : Nat)
      (acc : Option AnalysisResult),
      (loopGuard s = true ↔
        s = "in progress" ∨ s = "processing" ∨ s = "pending") ∧
      (loopGuard s = false →
        pollAux seq maxRetries s attempts acc = .exited s attempts acc) ∧
      (loopGuard s = true → attempts < maxRetries →
        pollAux seq maxRetries s attempts acc =
          pollAux seq maxRetries (seq attempts).status (attempts + 1)
            (match (seq attempts).result with
             | some r => some r
             | none => acc)) := by
  intro s seq maxRetries attempts acc
  refine ⟨?_, ?_, ?_⟩
  · simp [loopGuard, or_assoc]
  · intro h
    rw [pollAux.eq_def]
    simp [h]
  · intro h hlt
    rw [pollAux.eq_def]
    simp only [h, if_true, Nat.not_le.mpr hlt, if_false, if_neg (Nat.not_le.mpr hlt)]

/-- C1 witness: from status `'processing'` with the bound not yet reached,
one loop step re-queries and moves to the returned status `'done'`. -/
theorem pollLoop_guard_c1_witness :
    pollAux (fun _ => ⟨"done", none⟩) 60 "processing" 0 none =
      pollAux (fun _ => ⟨"done", none⟩) 60 "done" 1 none := by
  have h := (pollLoop_guard_c1 "processing" (fun _ => ⟨"done", none⟩) 60 0
    none).2.2 (by decide) (by omega)
  exact h

/-- C1 counterexample: the unrecognized status `"queued"` is none of the
explicitly terminal values `done` / `completed` / `no_faces_found`, yet
the loop guard rejects it and the poll loop stops after observing it,
instead of continuing to poll as the claim states. -/
theorem pollLoop_unrecognized_stops_c1 :
    loopGuard "queued" = false ∧
    ("queued" : String) ≠ "done" ∧
    ("queued" : String) ≠ "completed" ∧
    ("queued" : String) ≠ "no_faces_found" ∧
    pollAux (fun _ => ⟨"queued", none⟩) 60 "in progress" 0 none =
      .exited "queued" 1 none := by
  refine ⟨by decide, by decide, by decide, by decide, ?_⟩
  simp [pollAux, loopGuard]

end Proofly

namespace Proofly

/-- If every status the service ever reports keeps the loop guard true,
the poll loop times out after exactly `maxRetries` status queries. -/
theorem pollAux_timeout_of_never_terminal
    (seq : Nat → StatusResp) (maxRetries : Nat)
    (hseq : ∀ k, loopGuard (seq k).status = true) :
    ∀ (d attempts : Nat) (s : String) (acc : Option AnalysisResult),
      maxRetries - attempts = d → loopGuard s = true → attempts ≤ maxRetries →
      pollAux seq maxRetries s attempts acc = .timeout maxRetries := by
  intro d
  induction d with
  | zero =>
    intro attempts s acc hd hg ha
    rw [pollAux.eq_def, if_pos hg, if_pos (by omega)]
    rw [show attempts = maxRetries from by omega]
  | succ n ih =>
    intro attempts s acc hd hg ha
    rw [pollAux.eq_def, if_pos hg, if_neg (by omega)]
    exact ih (attempts + 1) _ _ (by omega) (hseq attempts) (by omega)

/-- If the first `k` statuses keep the guard true and the `(k+1)`-th does
not, with `k < maxRetries`, the poll loop exits with that status after
exactly `k + 1` queries. -/
theorem pollAux_exits_at (seq : Nat → StatusResp) (maxRetries k : Nat)
    (hk : k < maxRetries)
    (hbefore : ∀ j, j < k → loopGuard (seq j).status = true)
    (hterm : loopGuard (seq k).status = false) :
    ∃ acc, pollAux seq maxRetries "in progress" 0 none =
      .exited (seq k).status (k + 1) acc := by
  suffices h : ∀ (d attempts : Nat) (s : String) (acc0 : Option AnalysisResult),
      k - attempts = d → attempts ≤ k → loopGuard s = true →
      (∀ j, attempts ≤ j → j < k → loopGuard (seq j).status = true) →
      ∃ acc, pollAux seq maxRetries s attempts acc0 =
        .exited (seq k).status (k + 1) acc by
    exact h k 0 "in progress" none (by omega) (by omega) (by decide)
      (fun j _ hj => hbefore j hj)
  intro d
  induction d with
  | zero =>
    intro attempts s acc0 hd ha hg hall
    have hak : attempts = k := by omega
    subst hak
    refine ⟨(match (seq attempts).result with
             | some r => some r
             | none => acc0), ?_⟩
    rw [pollAux.eq_def, if_pos hg, if_neg (by omega)]
    show pollAux seq maxRetries (seq attempts).status (attempts + 1) _ = _
    rw [pollAux.eq_def, if_neg (by simp [hterm])]
  | succ n ih =>
    intro attempts s acc0 hd ha hg hall
    have hlt : attempts < k := by omega
    obtain ⟨acc, hacc⟩ := ih (attempts + 1) (seq attempts).status
      (match (seq attempts).result with | some r => some r | none => acc0)
      (by omega) (by omega) (hall attempts (le_refl _) hlt)
      (fun j hj1 hj2 => hall j (by omega) hj2)
    refine ⟨acc, ?_⟩
    rw [pollAux.eq_def, if_pos hg, if_neg (by omega)]
    exact hacc

/-- C2: for every status sequence, the submit poll loop terminates.
If every reported status keeps the loop guard true, the loop makes
exactly `maxRetries` status queries and `submit` fails with
`PollTimeoutError`; if the statuses are non-terminal up to index `k` below
the bound and the `(k+1)`-th response carries one of the terminal values
`done`, `completed`, `no_faces_found` or `no faces found`, the submit
orchestration resolves after `k + 1` status queries. -/
theorem submit_poll_termination_c2 :
    ∀ (seq : Nat → StatusResp) (maxRetries : Nat) (uuid : String)
      (fetchResult : AnalysisResult),
      ((∀ k, loopGuard (seq k).status = true) →
        pollAux seq maxRetries "in progress" 0 none = .timeout maxRetries ∧
        submitPoll maxRetries uuid seq fetchResult = .error .pollTimeout) ∧
      (∀ k, k < maxRetries →
        (∀ j, j < k → loopGuard (seq j).status = true) →
        ((seq k).status = "done" ∨ (seq k).status = "completed" ∨
         (seq k).status = "no_faces_found" ∨
         (seq k).status = "no faces found") →
        ∃ r fetches, submitPoll maxRetries uuid seq fetchResult =
          .ok (r, k + 1, fetches)) := by
  intro seq maxRetries uuid fetchResult
  constructor
  · intro hseq
    have ht := pollAux_timeout_of_never_terminal seq maxRetries hseq
      (maxRetries - 0) 0 "in progress" none rfl (by decide) (by omega)
    refine ⟨ht, ?_⟩
    unfold submitPoll
    rw [ht]
  · intro k hk hbefore hterm
    have hg : loopGuard (seq k).status = false := by
      rcases hterm with h | h | h | h <;> rw [h] <;> decide
    obtain ⟨acc, hacc⟩ := pollAux_exits_at seq maxRetries k hk hbefore hg
    unfold submitPoll
    rw [hacc]
    rcases acc with _ | r
    · rcases hterm with h | h | h | h
      · exact ⟨fetchResult, 1, by rw [h]; simp [finalizeResult]⟩
      · exact ⟨fetchResult, 1, by rw [h]; simp [finalizeResult]⟩
      · exact ⟨noFacesResult uuid, 0, by rw [h]; simp [finalizeResult]⟩
      · exact ⟨noFacesResult uuid, 0, by rw [h]; simp [finalizeResult]⟩
    · exact ⟨r, 0, by
        rcases hterm with h | h | h | h <;> rw [h] <;> simp [finalizeResult]⟩

/-- C2 witness: a service that always answers `processing` makes `submit`
time out; a service that answers `done` on the first query makes it
resolve after one status call. -/
theorem submit_poll_termination_c2_witness :
    (submitPoll 2 "u" (fun _ => ⟨"processing", none⟩)
      ⟨none, none, none, none, none, none⟩ = .error .pollTimeout) ∧
    (∃ r fetches, submitPoll 60 "u" (fun _ => ⟨"done", none⟩)
      ⟨none, none, none, none, none, none⟩ = .ok (r, 1, fetches)) := by
  constructor
  · exact ((submit_poll_termination_c2 (fun _ => ⟨"processing", none⟩) 2 "u"
      ⟨none, none, none, none, none, none⟩).1 (fun k => by decide)).2
  · exact (submit_poll_termination_c2 (fun _ => ⟨"done", none⟩) 60 "u"
      ⟨none, none, none, none, none, none⟩).2 0 (by omega)
      (fun j hj => absurd hj (Nat.not_lt_zero j)) (Or.inl rfl)

end Proofly

namespace Proofly

/-- C4: if the poll loop exits with a status that is neither
`done`/`completed` nor one of the two no-faces spellings, and no embedded
result was captured, submit fails with `AnalysisIncompleteError` carrying
the last observed status — it never returns a result. -/
theorem analysis_incomplete_c4 :
    ∀ (maxRetries : Nat) (uuid : String) (seq : Nat → StatusResp)
      (fetchResult : AnalysisResult) (status : String) (queries : Nat),
      pollAux seq maxRetries "in progress" 0 none =
        .exited status queries none →
      status ≠ "done" → status ≠ "completed" →
      status ≠ "no_faces_found" → status ≠ "no faces found" →
      submitPoll maxRetries uuid seq fetchResult =
        .error (.analysisIncomplete status) := by
  intro maxRetries uuid seq fetchResult status queries hpoll h1 h2 h3 h4
  unfold submitPoll
  rw [hpoll]
  simp [finalizeResult, h1, h2, h3, h4]

/-- C4 witness: a first status response of `"failed"` with no embedded
result makes submit fail with `AnalysisIncompleteError "failed"`. -/
theorem analysis_incomplete_c4_witness :
    submitPoll 60 "u4" (fun _ => ⟨"failed", none⟩)
      ⟨none, none, none, none, none, none⟩ =
      .error (.analysisIncomplete "failed") :=
  analysis_incomplete_c4 60 "u4" (fun _ => ⟨"failed", none⟩)
    ⟨none, none, none, none, none, none⟩ "failed" 1
    (by simp [pollAux, loopGuard]) (by decide) (by decide) (by decide)
    (by decide)

/-- C5: if the poll loop exits with a no-faces status (either spelling)
and no embedded result was captured, submit resolves — not errors — with
the synthesized result whose status is `no_faces_found`, whose faces list
is empty, and whose message is "No faces detected in the image.". -/
theorem no_faces_synthesis_c5 :
    ∀ (maxRetries : Nat) (uuid : String) (seq : Nat → StatusResp)
      (fetchResult : AnalysisResult) (status : String) (queries : Nat),
      pollAux seq maxRetries "in progress" 0 none =
        .exited status queries none →
      (status = "no_faces_found" ∨ status = "no faces found") →
      submitPoll maxRetries uuid seq fetchResult =
        .ok (noFacesResult uuid, queries, 0) ∧
      (noFacesResult uuid).status = some "no_faces_found" ∧
      (noFacesResult uuid).faces = some [] ∧
      (noFacesResult uuid).message =
        some "No faces detected in the image." := by
  intro maxRetries uuid seq fetchResult status queries hpoll hnf
  refine ⟨?_, rfl, rfl, rfl⟩
  unfold submitPoll
  rw [hpoll]
  rcases hnf with h | h <;> rw [h] <;> simp [finalizeResult]

/-- C5 witness: a first status response of `"no_faces_found"` with no
embedded result resolves to the synthesized no-faces result. -/
theorem no_faces_synthesis_c5_witness :
    submitPoll 60 "sess5" (fun _ => ⟨"no_faces_found", none⟩)
      ⟨none, none, none, none, none, none⟩ =
      .ok (noFacesResult "sess5", 1, 0) :=
  (no_faces_synthesis_c5 60 "sess5" (fun _ => ⟨"no_faces_found", none⟩)
    ⟨none, none, none, none, none, none⟩ "no_faces_found" 1
    (by simp [pollAux, loopGuard]) (Or.inl rfl)).1

/-- C7: if the poll loop exits with `done` or `completed` and no embedded
result was captured, submit performs exactly one explicit result fetch and
resolves with the fetched result. -/
theorem explicit_fetch_c7 :
    ∀ (maxRetries : Nat) (uuid : String) (seq : Nat → StatusResp)
      (fetchResult : AnalysisResult) (status : String) (queries : Nat),
      pollAux seq maxRetries "in progress" 0 none =
        .exited status queries none →
      (status = "done" ∨ status = "completed") →
      submitPoll maxRetries uuid seq fetchResult =
        .ok (fetchResult, queries, 1) := by
  intro maxRetries uuid seq fetchResult status queries hpoll hdone
  unfold submitPoll
  rw [hpoll]
  rcases hdone with h | h <;> rw [h] <;> simp [finalizeResult]

/-- C7 witness: a first status response of `"done"` with no embedded
result resolves with the explicitly fetched result, with fetch count 1. -/
theorem explicit_fetch_c7_witness :
    submitPoll 60 "sess7" (fun _ => ⟨"done", none⟩)
      ⟨some "sess7", none, some "done", none, some [], some 0⟩ =
      .ok (⟨some "sess7", none, some "done", none, some [], some 0⟩, 1, 1) :=
  explicit_fetch_c7 60 "sess7" (fun _ => ⟨"done", none⟩)
    ⟨some "sess7", none, some "done", none, some [], some 0⟩ "done" 1
    (by simp [pollAux, loopGuard]) (Or.inl rfl)

/-- The embedded result delivered on the third status response of the C8
scenario. -/
def scenarioEmbedded : AnalysisResult :=
  ⟨some "abc", none, some "done", none, some [⟨some (9/10), [], none⟩],
    some 1⟩

/-- What the result endpoint would return in the C8 scenario; distinct
from the embedded result so the two are distinguishable. -/
def scenarioFetch : AnalysisResult :=
  ⟨some "abc", none, some "done", none, some [], some 0⟩

/-- The C8 status sequence: `processing`, `processing`, then `done`
carrying the embedded result on the third response. -/
def scenarioSeq : Nat → StatusResp := fun k =>
  if k = 0 then ⟨"processing", none⟩
  else if k = 1 then ⟨"processing", none⟩
  else ⟨"done", some scenarioEmbedded⟩

/-- C8 counterexample: in the scenario (upload returns uuid `abc`; status
sequence `processing`, `processing`, `done` with embedded result on the
third response) submit resolves with the embedded result but makes 3
status calls, not the 2 the claim states. -/
theorem scenario_poll_count_c8_counterexample :
    submit 60 (some "abc") scenarioSeq scenarioFetch =
      .ok (scenarioEmbedded, 3, 0) ∧ (3 : Nat) ≠ 2 := by
  constructor
  · simp [submit, submitPoll, pollAux, loopGuard, scenarioSeq,
      finalizeResult, scenarioEmbedded]
  · decide

/-- C8 (amended): in the scenario, submit resolves with the embedded
result of the third status response (no explicit result fetch), making
exactly 3 poll calls after the upload. -/
theorem scenario_three_polls_c8 :
    submit 60 (some "abc") scenarioSeq scenarioFetch =
      .ok (scenarioEmbedded, 3, 0) := by
  simp [submit, submitPoll, pollAux, loopGuard, scenarioSeq,
    finalizeResult, scenarioEmbedded]

end Proofly

namespace Proofly

/-- JS falsiness of an optional string argument: absent (`none`) or the
empty string. -/
def jsFalsyStr (s : Option String) : Bool :=
  match s with
  | none => true
  | some t => t == ""

/-- The two error kinds `handleGetFaceDetails` can raise before/at face
lookup: `McpError(ErrorCode.InvalidParams, ...)` from the argument
validation and `McpError(ErrorCode.NotFound, ...)` from the range check. -/
inductive ToolError where
  | invalidParams
  | notFound
deriving DecidableEq, Repr

/-- `handleGetFaceDetails` (server.js lines 500-521). `faceIndex = none`
models a missing or non-numeric argument
(`typeof faceIndex !== 'number'`); `fetched` is the payload
`GET /api/{sessionUuid}` would return. The second component counts the
result fetches performed: the validation at line 504 runs before any
network call, so a validation failure performs none. -/
def handleGetFaceDetails (sessionUuid : Option String)
    (faceIndex : Option Int) (fetched : AnalysisResult) :
    Except ToolError Face × Nat :=
  match faceIndex with
  | none => (.error .invalidParams, 0)
  | some i =>
    if jsFalsyStr sessionUuid = true ∨ i < 0 then (.error .invalidParams, 0)
    else
      match fetched.faces with
      | none => (.error .notFound, 1)
      | some faces =>
        if (faces.length : Int) ≤ i then (.error .notFound, 1)
        else
          match faces.get? i.toNat with
          | some f => (.ok f, 1)
          | none => (.error .notFound, 1)

/-- C6: on the freshly fetched result (a valid session id and a
validation-passing, non-negative index, so the fetch actually happens),
the face-detail operation returns `faces[i]` unchanged when
`i < faces.length`, and fails with `NotFoundError` when
`i ≥ faces.length` or when the faces field is absent (treated as length
0); exactly one result fetch is made in each case. -/
theorem face_detail_range_c6 :
    ∀ (u : String) (i : Int) (fetched : AnalysisResult),
      u ≠ "" → 0 ≤ i →
      (∀ faces f, fetched.faces = some faces →
        faces.get? i.toNat = some f →
        handleGetFaceDetails (some u) (some i) fetched = (.ok f, 1)) ∧
      (∀ faces, fetched.faces = some faces → (faces.length : Int) ≤ i →
        handleGetFaceDetails (some u) (some i) fetched =
          (.error .notFound, 1)) ∧
      (fetched.faces = none →
        handleGetFaceDetails (some u) (some i) fetched =
          (.error .notFound, 1)) := by
  intro u i fetched hu hi
  have hfal : jsFalsyStr (some u) = false := by
    simp [jsFalsyStr, hu]
  refine ⟨?_, ?_, ?_⟩
  · intro faces f hf hg
    have hlen : i.toNat < faces.length := (List.get?_eq_some.mp hg).1
    have htn : (i.toNat : Int) = i := Int.toNat_of_nonneg hi
    have hle : ¬ ((faces.length : Int) ≤ i) := by omega
    rw [List.get?_eq_getElem?] at hg
    simp [handleGetFaceDetails, hfal, hf, hg, hle, not_lt.mpr hi]
  · intro faces hf hle
    simp [handleGetFaceDetails, hfal, hf, hle, not_lt.mpr hi]
  · intro hf
    simp [handleGetFaceDetails, hfal, hf, not_lt.mpr hi]

/-- C6 witness: index 0 on a one-face result returns that face unchanged
with one fetch. -/
theorem face_detail_range_c6_witness :
    handleGetFaceDetails (some "s6") (some 0)
      ⟨some "s6", none, some "done", none, some [⟨some (1/2), [], none⟩],
        some 1⟩ = (.ok ⟨some (1/2), [], none⟩, 1) :=
  (face_detail_range_c6 "s6" 0
    ⟨some "s6", none, some "done", none, some [⟨some (1/2), [], none⟩],
      some 1⟩ (by decide) (by decide)).1 _ _ rfl rfl

/-- C10: a missing/empty session id, a missing or non-numeric face index,
or a negative face index fails immediately with the invalid-parameters
error — which is distinct from `NotFoundError` — and performs no network
fetch. -/
theorem face_detail_validation_c10 :
    ∀ (su : Option String) (fi : Option Int) (fetched : AnalysisResult),
      (jsFalsyStr su = true ∨ fi = none ∨ ∃ i, fi = some i ∧ i < 0) →
      handleGetFaceDetails su fi fetched = (.error .invalidParams, 0) ∧
      ToolError.invalidParams ≠ ToolError.notFound := by
  intro su fi fetched h
  refine ⟨?_, by decide⟩
  rcases fi with _ | i
  · rfl
  · rcases h with h | h | ⟨j, hj, hneg⟩
    · simp [handleGetFaceDetails, h]
    · exact absurd h (by simp)
    · injection hj with hij
      subst hij
      simp [handleGetFaceDetails, hneg]

/-- C10 witness: face index `-1` with a present session id and an
available one-face result is rejected as invalid parameters (not
not-found) with zero fetches. -/
theorem face_detail_validation_c10_witness :
    handleGetFaceDetails (some "abc") (some (-1))
      ⟨none, none, none, none, some [⟨some (1/2), [], none⟩], some 1⟩ =
      (.error .invalidParams, 0) :=
  (face_detail_validation_c10 (some "abc") (some (-1))
    ⟨none, none, none, none, some [⟨some (1/2), [], none⟩], some 1⟩
    (Or.inr (Or.inr ⟨-1, rfl, by decide⟩))).1

end Proofly

namespace Proofly

/-- Membership of a character in the base64 alphabet (including the `=`
padding): the characters a base64 payload may contain. -/
def isB64Char (c : Char) : Bool :=
  ('A' ≤ c && c ≤ 'Z') || ('a' ≤ c && c ≤ 'z') || ('0' ≤ c && c ≤ '9') ||
    c == '+' || c == '/' || c == '='

/-- The value of one base64 digit; `none` for padding and any
non-alphabet character, which Node's forgiving decoder skips. -/
def b64Val (c : Char) : Option Nat :=
  if 'A' ≤ c ∧ c ≤ 'Z' then some (c.toNat - 'A'.toNat)
  else if 'a' ≤ c ∧ c ≤ 'z' then some (c.toNat - 'a'.toNat + 26)
  else if '0' ≤ c ∧ c ≤ '9' then some (c.toNat - '0'.toNat + 52)
  else if c = '+' then some 62
  else if c = '/' then some 63
  else none

/-- Pack a list of sextet values into bytes: 4 digits to 3 bytes, with
the usual truncation for a trailing group of 2 or 3 digits. -/
def b64Bytes : List Nat → List Nat
  | a :: b :: c :: d :: rest =>
    (a * 4 + b / 16) :: ((b % 16) * 16 + c / 4) :: ((c % 4) * 64 + d) ::
      b64Bytes rest
  | [a, b, c] => [a * 4 + b / 16, (b % 16) * 16 + c / 4]
  | [a, b] => [a * 4 + b / 16]
  | _ => []

/-- Model of `Buffer.from(s, 'base64')` (server.js line 279): decode the
base64 digits of `l`, skipping padding and non-alphabet characters. -/
def b64Decode (l : List Char) : List Nat :=
  b64Bytes (l.filterMap b64Val)

/-- JS `String.prototype.split(',')` on a character list (server.js line
276 splits on `','`). Always returns at least one piece. -/
def splitOnComma : List Char → List (List Char)
  | [] => [[]]
  | c :: rest =>
    if c = ',' then [] :: splitOnComma rest
    else
      match splitOnComma rest with
      | [] => [[c]]
      | h :: t => (c :: h) :: t

/-- The prefix tested by `imageBase64.startsWith('data:image')`
(server.js line 275). -/
def dataImagePrefix : List Char := "data:image".toList

/-- The data-URI stripping step of `handleAnalyzeImage` (server.js lines
274-278): when the input starts with `data:image`, keep `split(',')[1]`
(`none` models the JS `undefined` when there is no second piece);
otherwise keep the input unchanged. -/
def stripDataUri (s : List Char) : Option (List Char) :=
  if dataImagePrefix.isPrefixOf s then (splitOnComma s).get? 1
  else some s

/-- The decoded bytes submitted for upload: strip a data-URI prefix, then
base64-decode (server.js lines 274-279). -/
def decodeImagePayload (s : List Char) : Option (List Nat) :=
  (stripDataUri s).map b64Decode

/-- A data-URI header of the claim's form `data:image/...;base64,`. -/
def dataUriHeader (mime : List Char) : List Char :=
  "data:image/".toList ++ mime ++ ";base64,".toList

/-- Splitting a comma-free list yields the single piece unchanged. -/
theorem splitOnComma_no_comma :
    ∀ l : List Char, ',' ∉ l → splitOnComma l = [l] := by
  intro l hl
  induction l with
  | nil => rfl
  | cons c rest ih =>
    have hc : ¬ c = ',' := fun h => hl (h ▸ List.mem_cons_self c rest)
    have hrest : ',' ∉ rest := fun h => hl (List.mem_cons_of_mem c h)
    rw [splitOnComma, if_neg hc, ih hrest]

/-- Splitting `h ++ ',' :: p` with a comma-free `h` peels off `h` as the
first piece. -/
theorem splitOnComma_append :
    ∀ h p : List Char, ',' ∉ h →
      splitOnComma (h ++ ',' :: p) = h :: splitOnComma p := by
  intro h p hh
  induction h with
  | nil => rw [List.nil_append, splitOnComma, if_pos rfl]
  | cons c hs ih =>
    have hc : ¬ c = ',' := fun hx => hh (hx ▸ List.mem_cons_self c hs)
    have hhs : ',' ∉ hs := fun hx => hh (List.mem_cons_of_mem c hx)
    rw [List.cons_append, splitOnComma, if_neg hc, ih hhs]

/-- C9: prefixing a base64 payload with a `data:image/...;base64,` header
and submitting it yields exactly the same decoded byte sequence (hence
the same uploaded bytes) as submitting the unprefixed payload: the prefix
is stripped before decoding. -/
theorem data_uri_strip_c9 :
    ∀ (mime payload : List Char),
      (∀ c ∈ payload, isB64Char c = true) → ',' ∉ mime →
      decodeImagePayload (dataUriHeader mime ++ payload) =
        decodeImagePayload payload ∧
      decodeImagePayload (dataUriHeader mime ++ payload) =
        some (b64Decode payload) := by
  intro mime payload hp hm
  have hpc : ',' ∉ payload := fun h => by
    have := hp ',' h
    simp [isB64Char] at this
  have hnp : dataImagePrefix.isPrefixOf payload = false := by
    by_contra hx
    have hpre : dataImagePrefix <+: payload :=
      List.isPrefixOf_iff_prefix.mp (by revert hx; cases dataImagePrefix.isPrefixOf payload <;> simp)
    have hcol : ':' ∈ payload :=
      hpre.subset (show ':' ∈ dataImagePrefix by decide)
    have := hp ':' hcol
    simp [isB64Char] at this
  have hsplit : dataUriHeader mime ++ payload =
      ("data:image/".toList ++ mime ++ ";base64".toList) ++ ',' :: payload := by
    show ("data:image/".toList ++ mime ++ ";base64,".toList) ++ payload = _
    have : (";base64,".toList : List Char) = ";base64".toList ++ [','] := by decide
    rw [this]
    simp
  have hhead : ',' ∉ ("data:image/".toList ++ mime ++ ";base64".toList) := by
    intro hx
    rcases List.mem_append.mp hx with hx | hx
    · rcases List.mem_append.mp hx with hx | hx
      · revert hx; decide
      · exact hm hx
    · revert hx; decide
  have hyes : dataImagePrefix.isPrefixOf (dataUriHeader mime ++ payload) = true := by
    apply List.isPrefixOf_iff_prefix.mpr
    have h1 : dataImagePrefix <+: "data:image/".toList := by decide
    have h2 : ("data:image/".toList : List Char) <+:
        "data:image/".toList ++ (mime ++ (";base64,".toList ++ payload)) :=
      List.prefix_append _ _
    have := h1.trans h2
    simpa [dataUriHeader] using this
  have hstrip1 : stripDataUri (dataUriHeader mime ++ payload) = some payload := by
    rw [stripDataUri, if_pos hyes, hsplit, splitOnComma_append _ _ hhead,
      splitOnComma_no_comma payload hpc]
    rfl
  have hstrip2 : stripDataUri payload = some payload := by
    rw [stripDataUri, if_neg (by simp [hnp])]
  constructor
  · rw [decodeImagePayload, decodeImagePayload, hstrip1, hstrip2]
  · rw [decodeImagePayload, hstrip1]
    rfl

/-- C9 witness: the concrete payload `aGVsbG8=` prefixed with
`data:image/png;base64,` decodes to the same bytes as the bare payload. -/
theorem data_uri_strip_c9_witness :
    decodeImagePayload
        (dataUriHeader "png".toList ++ "aGVsbG8=".toList) =
      decodeImagePayload "aGVsbG8=".toList :=
  (data_uri_strip_c9 "png".toList "aGVsbG8=".toList (by decide)
    (by decide)).1

end Proofly
